import Mathlib

/-!
Verification of `map.py` (racebox GPS visualizer).

Shallow embedding of the pure core of `src/map.py`:

* coordinates and spans are rationals (exact arithmetic stands in for the
  script's float arithmetic);
* `read_gps_data` is split into the float-parsing phase
  (`read_gps_data_raw`, where a failed `float()` call is `none` and aborts
  the whole call, as an uncaught `ValueError` does) and the
  filtering phase on already-parsed rows (`read_gps_data`);
* Python's `min`/`max` on a possibly-empty sequence raise `ValueError`,
  modelled by `Option` in `calculate_bounds`;
* in `estimate_zoom`, `int(12 - np.log(d)/np.log(2))` truncates toward zero:
  for `0 < d ≤ 2 ^ 12 = 4096` the argument `12 - log2 d` is nonnegative and
  truncation is `⌊12 - log2 d⌋ = 12 - ⌈log2 d⌉ = 12 - Int.clog 2 d`, and for
  `d > 2 ^ 12` it is `⌈12 - log2 d⌉ = 12 - ⌊log2 d⌋ = 12 - Int.log 2 d`;
* the rendering tail of `plot_gps_path` (GeoDataFrame, reprojection, tile
  fetch) is abstracted to the `PlotResult.rendered` outcome carrying the
  bounds and the zoom level it would use.
-/

/-- Constant from `LAT_MIN, LAT_MAX = 48.5, 51.5` (map.py line 10). -/
def LAT_MIN : ℚ := 48.5

/-- Constant from `LAT_MIN, LAT_MAX = 48.5, 51.5` (map.py line 10). -/
def LAT_MAX : ℚ := 51.5

/-- Constant from `LON_MIN, LON_MAX = 12.0, 18.9` (map.py line 11). -/
def LON_MIN : ℚ := 12.0

/-- Constant from `LON_MIN, LON_MAX = 12.0, 18.9` (map.py line 11). -/
def LON_MAX : ℚ := 18.9

/-- Filter condition of `read_gps_data` (map.py line 29):
`LON_MIN <= longitude <= LON_MAX and LAT_MIN <= latitude <= LAT_MAX`. -/
def inBounds (longitude latitude : ℚ) : Bool :=
  decide (LON_MIN ≤ longitude ∧ longitude ≤ LON_MAX ∧
    LAT_MIN ≤ latitude ∧ latitude ≤ LAT_MAX)

/-- Function `read_gps_data` (map.py lines 14-35) after the `float()` parsing
phase: iterate the rows in order and append the in-bounds pairs to the two
accumulator lists `longitudes` and `latitudes`. -/
def read_gps_data (rows : List (ℚ × ℚ)) : List ℚ × List ℚ :=
  rows.foldl
    (fun acc row =>
      if inBounds row.1 row.2 then (acc.1 ++ [row.1], acc.2 ++ [row.2]) else acc)
    ([], [])

/-- Function `read_gps_data` (map.py lines 14-35) including the `float()`
parsing of each row's `Longitude` and `Latitude` fields: a field that does
not parse is `none`, and the uncaught `ValueError` aborts the whole call, so
no list is returned at all. -/
def read_gps_data_raw (rows : List (Option ℚ × Option ℚ)) :
    Option (List ℚ × List ℚ) :=
  match rows with
  | [] => some ([], [])
  | row :: rest =>
    match row.1, row.2 with
    | some lon, some lat =>
      (read_gps_data_raw rest).map fun p =>
        if inBounds lon lat then (lon :: p.1, lat :: p.2) else p
    | _, _ => none

/-- Function `calculate_bounds` (map.py lines 38-39):
`return min(longitudes), max(longitudes), min(latitudes), max(latitudes)`.
Python's `min`/`max` raise `ValueError` on an empty sequence; that failure is
`none`. -/
def calculate_bounds (longitudes latitudes : List ℚ) :
    Option (ℚ × ℚ × ℚ × ℚ) :=
  match longitudes.min?, longitudes.max?, latitudes.min?, latitudes.max? with
  | some a, some b, some c, some d => some (a, b, c, d)
  | _, _, _, _ => none

/-- Function `estimate_zoom` (map.py lines 42-55). The source computes
`int(12 - np.log(max(lon_diff, lat_diff)) / np.log(2))` and clamps with
`max(0, min(zoom, 19))`. Python's `int()` truncates toward zero, so for
`d ≤ 2 ^ 12 = 4096` (nonnegative argument) it is `12 - ⌈log2 d⌉ =
12 - Int.clog 2 d`, and otherwise `12 - ⌊log2 d⌋ = 12 - Int.log 2 d`. -/
def estimate_zoom (min_lon max_lon min_lat max_lat : ℚ) : ℤ :=
  let lon_diff := max_lon - min_lon
  let lat_diff := max_lat - min_lat
  if lon_diff = 0 ∧ lat_diff = 0 then 19
  else
    let d := max lon_diff lat_diff
    let zoom : ℤ := if d ≤ 4096 then 12 - Int.clog 2 d else 12 - Int.log 2 d
    max 0 (min zoom 19)

/-- Outcome of one `plot_gps_path` call (map.py lines 58-103), abstracting
the `matplotlib`/`geopandas`/`contextily` side effects. -/
inductive PlotResult where
  /-- The `len < 1000` guard fired: "Skipping ...: Less than 1000 rows". -/
  | skippedFewRows
  /-- The `len == 0` guard fired: "No valid GPS data to plot". -/
  | skippedEmpty
  /-- Python `min`/`max` raised `ValueError` inside `calculate_bounds`. -/
  | valueError
  /-- A figure is rendered with these WGS84 bounds and this basemap zoom. -/
  | rendered (min_lon max_lon min_lat max_lat : ℚ) (zoom : ℤ)
  deriving DecidableEq

/-- Whether a `plot_gps_path` outcome actually rendered a figure. -/
def PlotResult.isRendered : PlotResult → Bool
  | rendered _ _ _ _ _ => true
  | _ => false

/-- Function `plot_gps_path` (map.py lines 58-103) on the already-parsed rows
of one CSV file: the two row-count guards, then `calculate_bounds` and
`estimate_zoom` feeding the render. -/
def plot_gps_path (rows : List (ℚ × ℚ)) : PlotResult :=
  let p := read_gps_data rows
  if p.1.length < 1000 ∨ p.2.length < 1000 then .skippedFewRows
  else if p.1.length = 0 ∨ p.2.length = 0 then .skippedEmpty
  else
    match calculate_bounds p.1 p.2 with
    | none => .valueError
    | some (a, b, c, d) => .rendered a b c d (estimate_zoom a b c d)

/-! Sanity checks of the embedding on concrete inputs. -/

example : inBounds 13 50 = true := by
  norm_num [inBounds, LON_MIN, LON_MAX, LAT_MIN, LAT_MAX]

example : inBounds 11 50 = false := by
  norm_num [inBounds, LON_MIN, LON_MAX, LAT_MIN, LAT_MAX]

example : read_gps_data [(13, 50), (11, 50), (14, 49)] = ([13, 14], [50, 49]) := by
  norm_num [read_gps_data, inBounds, LON_MIN, LON_MAX, LAT_MIN, LAT_MAX]

example : calculate_bounds [] [] = none := rfl

/-! Helper lemmas about the embedding. -/

/-- The row filter used by `read_gps_data`, as a predicate on pairs. -/
def rowOk (r : ℚ × ℚ) : Bool := inBounds r.1 r.2

theorem read_gps_data_foldl (rows : List (ℚ × ℚ)) (acc : List ℚ × List ℚ) :
    rows.foldl
      (fun acc row =>
        if inBounds row.1 row.2 then (acc.1 ++ [row.1], acc.2 ++ [row.2]) else acc)
      acc =
      (acc.1 ++ (rows.filter rowOk).map Prod.fst,
       acc.2 ++ (rows.filter rowOk).map Prod.snd) := by
  induction rows generalizing acc with
  | nil => simp
  | cons r rest ih =>
    by_cases h : inBounds r.1 r.2
    · simp [List.foldl_cons, ih, List.filter_cons, rowOk, h]
    · simp [List.foldl_cons, ih, List.filter_cons, rowOk, h]

theorem read_gps_data_eq (rows : List (ℚ × ℚ)) :
    read_gps_data rows =
      ((rows.filter rowOk).map Prod.fst, (rows.filter rowOk).map Prod.snd) := by
  simpa using read_gps_data_foldl rows ([], [])

theorem read_gps_data_length_eq (rows : List (ℚ × ℚ)) :
    (read_gps_data rows).1.length = (read_gps_data rows).2.length := by
  simp [read_gps_data_eq]

instance antisymmRatLe : Std.Antisymm ((· : ℚ) ≤ ·) :=
  ⟨fun h1 h2 => le_antisymm h1 h2⟩

theorem rat_min?_eq_some_iff {xs : List ℚ} {a : ℚ} :
    xs.min? = some a ↔ a ∈ xs ∧ ∀ b ∈ xs, a ≤ b :=
  List.min?_eq_some_iff (fun _ => le_refl _) min_choice (fun _ _ _ => le_min_iff)

theorem rat_max?_eq_some_iff {xs : List ℚ} {a : ℚ} :
    xs.max? = some a ↔ a ∈ xs ∧ ∀ b ∈ xs, b ≤ a :=
  List.max?_eq_some_iff (fun _ => le_refl _) max_choice (fun _ _ _ => max_le_iff)

theorem calculate_bounds_spec {lons lats : List ℚ}
    (h1 : lons ≠ []) (h2 : lats ≠ []) :
    ∃ a b c d, calculate_bounds lons lats = some (a, b, c, d) ∧
      a ∈ lons ∧ b ∈ lons ∧ c ∈ lats ∧ d ∈ lats ∧
      (∀ x ∈ lons, a ≤ x) ∧ (∀ x ∈ lons, x ≤ b) ∧
      (∀ y ∈ lats, c ≤ y) ∧ (∀ y ∈ lats, y ≤ d) := by
  obtain ⟨a, ha⟩ := Option.ne_none_iff_exists'.mp
    (fun h => h1 (List.min?_eq_none_iff.mp h))
  obtain ⟨b, hb⟩ := Option.ne_none_iff_exists'.mp
    (fun h => h1 (List.max?_eq_none_iff.mp h))
  obtain ⟨c, hc⟩ := Option.ne_none_iff_exists'.mp
    (fun h => h2 (List.min?_eq_none_iff.mp h))
  obtain ⟨d, hd⟩ := Option.ne_none_iff_exists'.mp
    (fun h => h2 (List.max?_eq_none_iff.mp h))
  refine ⟨a, b, c, d, ?_, ?_⟩
  · unfold calculate_bounds
    rw [ha, hb, hc, hd]
  · obtain ⟨ha1, ha2⟩ := rat_min?_eq_some_iff.mp ha
    obtain ⟨hb1, hb2⟩ := rat_max?_eq_some_iff.mp hb
    obtain ⟨hc1, hc2⟩ := rat_min?_eq_some_iff.mp hc
    obtain ⟨hd1, hd2⟩ := rat_max?_eq_some_iff.mp hd
    exact ⟨ha1, hb1, hc1, hd1, ha2, hb2, hc2, hd2⟩

theorem estimate_zoom_nonneg (a b c d : ℚ) : 0 ≤ estimate_zoom a b c d := by
  simp only [estimate_zoom]
  split
  · norm_num
  · exact le_max_left 0 _

theorem estimate_zoom_le_nineteen (a b c d : ℚ) : estimate_zoom a b c d ≤ 19 := by
  simp only [estimate_zoom]
  split
  · exact le_refl _
  · exact max_le (by norm_num) (min_le_right _ _)

theorem estimate_zoom_of_ne (a b c d : ℚ) (h : ¬(b - a = 0 ∧ d - c = 0)) :
    estimate_zoom a b c d =
      max 0 (min (if max (b - a) (d - c) ≤ 4096
        then 12 - Int.clog 2 (max (b - a) (d - c))
        else 12 - Int.log 2 (max (b - a) (d - c))) 19) := by
  simp only [estimate_zoom, if_neg h]

theorem span_max_pos {s t : ℚ} (hs : 0 ≤ s) (ht : 0 ≤ t) (h : ¬(s = 0 ∧ t = 0)) :
    0 < max s t := by
  rcases not_and_or.mp h with h1 | h1
  · exact lt_max_of_lt_left (lt_of_le_of_ne hs (Ne.symm h1))
  · exact lt_max_of_lt_right (lt_of_le_of_ne ht (Ne.symm h1))

theorem twelve_le_log {d : ℚ} (hd : 4096 < d) : 12 ≤ Int.log 2 d := by
  have hd0 : (0:ℚ) < d := lt_trans (by norm_num) hd
  refine (Int.zpow_le_iff_le_log (b := 2) one_lt_two hd0).mp ?_
  have : ((2:ℕ) : ℚ) ^ (12 : ℤ) = 4096 := by
    norm_num
  rw [this]
  exact hd.le

theorem twelve_le_clog {d : ℚ} (hd : 4096 < d) : 12 ≤ Int.clog 2 d := by
  have hd0 : (0:ℚ) < d := lt_trans (by norm_num) hd
  have h11 : (11 : ℤ) < Int.clog 2 d := by
    rw [← Int.zpow_lt_iff_lt_clog one_lt_two hd0]
    have : ((2:ℕ) : ℚ) ^ (11 : ℤ) = 2048 := by
      norm_num
    rw [this]
    linarith
  omega

theorem clog_two_ratCast {d : ℚ} (hd : 0 < d) :
    Int.clog 2 ((d : ℝ)) = Int.clog 2 d := by
  have hdR : (0:ℝ) < (d : ℝ) := by exact_mod_cast hd
  have key : ∀ x : ℤ, Int.clog 2 d ≤ x ↔ Int.clog 2 ((d : ℝ)) ≤ x := by
    intro x
    rw [← Int.le_zpow_iff_clog_le one_lt_two hd,
      ← Int.le_zpow_iff_clog_le one_lt_two hdR]
    constructor
    · intro h
      have h2 := (Rat.cast_le (K := ℝ)).mpr h
      rwa [Rat.cast_zpow, Rat.cast_natCast] at h2
    · intro h
      apply (Rat.cast_le (K := ℝ)).mp
      rw [Rat.cast_zpow, Rat.cast_natCast]
      exact h
  exact le_antisymm ((key _).mp le_rfl) ((key _).mpr le_rfl)

theorem floor_twelve_sub_logb {d : ℚ} (hd : 0 < d) :
    ⌊(12 : ℝ) - Real.logb 2 (d : ℝ)⌋ = 12 - Int.clog 2 d := by
  have hdR : (0:ℝ) ≤ (d : ℝ) := by exact_mod_cast hd.le
  have hceil : ⌈Real.logb 2 (d : ℝ)⌉ = Int.clog 2 ((d : ℝ)) := by
    have h := Real.ceil_logb_natCast (b := 2) (r := (d : ℝ)) hdR
    simpa using h
  have hrw : (12 : ℝ) - Real.logb 2 (d : ℝ) =
      ((12 : ℤ) : ℝ) + (-(Real.logb 2 (d : ℝ))) := by
    push_cast
    ring
  rw [hrw, Int.floor_int_add, Int.floor_neg, hceil, clog_two_ratCast hd]
  ring

theorem zoom_clamp_eq {d : ℚ} (hd0 : 0 < d) :
    max 0 (min (if d ≤ 4096 then 12 - Int.clog 2 d else 12 - Int.log 2 d) 19) =
      max 0 (min (12 - Int.clog 2 d) 19) := by
  by_cases h4 : d ≤ 4096
  · rw [if_pos h4]
  · rw [if_neg h4]
    have hl := twelve_le_log (not_le.mp h4)
    have hc := twelve_le_clog (not_le.mp h4)
    omega

theorem clog_two_sixtynine_tenths : Int.clog 2 ((69 : ℚ)/10) = 3 := by
  rw [Int.clog_of_one_le_right _ (by norm_num)]
  have h : ⌈(69 : ℚ)/10⌉₊ = 7 := by norm_num [Nat.ceil_eq_iff]
  rw [h]
  have h2 : Nat.clog 2 7 = 3 := by simp [Nat.clog]
  rw [h2]
  rfl

/-- C1: for every bounding box with non-negative spans, `estimate_zoom`
returns 19 when both spans are exactly zero, and otherwise
`floor(12 - log2(max(lon_span, lat_span)))` clamped to `[0, 19]`. -/
theorem C1_estimate_zoom_formula (min_lon max_lon min_lat max_lat : ℚ)
    (hlon : 0 ≤ max_lon - min_lon) (hlat : 0 ≤ max_lat - min_lat) :
    estimate_zoom min_lon max_lon min_lat max_lat =
      if max_lon - min_lon = 0 ∧ max_lat - min_lat = 0 then 19
      else
        max 0 (min ⌊(12 : ℝ) -
          Real.logb 2 ((max (max_lon - min_lon) (max_lat - min_lat) : ℚ) : ℝ)⌋ 19) := by
  by_cases h : max_lon - min_lon = 0 ∧ max_lat - min_lat = 0
  · simp [estimate_zoom, h]
  · have hd0 : 0 < max (max_lon - min_lon) (max_lat - min_lat) :=
      span_max_pos hlon hlat h
    rw [if_neg h, floor_twelve_sub_logb hd0, estimate_zoom_of_ne _ _ _ _ h,
      zoom_clamp_eq hd0]

/-- Witness for C1 at the box `(0, 1/2, 0, 0)`. -/
theorem C1_estimate_zoom_formula_witness :
    (0 ≤ (1/2 : ℚ) - 0 ∧ 0 ≤ (0 : ℚ) - 0) ∧
    estimate_zoom 0 (1/2) 0 0 =
      (if (1/2 : ℚ) - 0 = 0 ∧ (0 : ℚ) - 0 = 0 then 19
       else
         max 0 (min ⌊(12 : ℝ) -
           Real.logb 2 ((max ((1/2 : ℚ) - 0) ((0 : ℚ) - 0) : ℚ) : ℝ)⌋ 19)) :=
  ⟨⟨by norm_num, by norm_num⟩,
   C1_estimate_zoom_formula 0 (1/2) 0 0 (by norm_num) (by norm_num)⟩

/-- C5: for every bounding box with non-negative spans, `estimate_zoom`
returns a value in `[0, 19]`. -/
theorem C5_zoom_range (a b c d : ℚ) (h1 : 0 ≤ b - a) (h2 : 0 ≤ d - c) :
    0 ≤ estimate_zoom a b c d ∧ estimate_zoom a b c d ≤ 19 :=
  ⟨estimate_zoom_nonneg a b c d, estimate_zoom_le_nineteen a b c d⟩

/-- Witness for C5 at the box `(0, 3, 0, 1)`. -/
theorem C5_zoom_range_witness :
    (0 ≤ (3 : ℚ) - 0 ∧ 0 ≤ (1 : ℚ) - 0) ∧
    0 ≤ estimate_zoom 0 3 0 1 ∧ estimate_zoom 0 3 0 1 ≤ 19 :=
  ⟨⟨by norm_num, by norm_num⟩, C5_zoom_range 0 3 0 1 (by norm_num) (by norm_num)⟩

/-- C4: for any two bounding boxes with non-negative spans, if the maximal
span of the first is at most that of the second, the estimated zoom of the
first is at least that of the second. -/
theorem C4_zoom_monotone (a1 b1 c1 d1 a2 b2 c2 d2 : ℚ)
    (h1 : 0 ≤ b1 - a1) (h2 : 0 ≤ d1 - c1) (h3 : 0 ≤ b2 - a2) (h4 : 0 ≤ d2 - c2)
    (hle : max (b1 - a1) (d1 - c1) ≤ max (b2 - a2) (d2 - c2)) :
    estimate_zoom a2 b2 c2 d2 ≤ estimate_zoom a1 b1 c1 d1 := by
  by_cases hz1 : b1 - a1 = 0 ∧ d1 - c1 = 0
  · rw [show estimate_zoom a1 b1 c1 d1 = 19 from by simp [estimate_zoom, hz1]]
    exact estimate_zoom_le_nineteen a2 b2 c2 d2
  · have hx1 : 0 < max (b1 - a1) (d1 - c1) := span_max_pos h1 h2 hz1
    have hx2 : 0 < max (b2 - a2) (d2 - c2) := lt_of_lt_of_le hx1 hle
    have hz2 : ¬(b2 - a2 = 0 ∧ d2 - c2 = 0) := by
      rintro ⟨e1, e2⟩
      rw [e1, e2] at hx2
      simp at hx2
    rw [estimate_zoom_of_ne _ _ _ _ hz1, estimate_zoom_of_ne _ _ _ _ hz2,
      zoom_clamp_eq hx1, zoom_clamp_eq hx2]
    have hm := Int.clog_mono_right (b := 2) hx1 hle
    omega

/-- Witness for C4 with the boxes `(0, 1, 0, 0)` and `(0, 2, 0, 0)`. -/
theorem C4_zoom_monotone_witness :
    (0 ≤ (1 : ℚ) - 0 ∧ 0 ≤ (0 : ℚ) - 0 ∧ 0 ≤ (2 : ℚ) - 0 ∧
      max ((1 : ℚ) - 0) ((0 : ℚ) - 0) ≤ max ((2 : ℚ) - 0) ((0 : ℚ) - 0)) ∧
    estimate_zoom 0 2 0 0 ≤ estimate_zoom 0 1 0 0 :=
  ⟨⟨by norm_num, by norm_num, by norm_num, by norm_num⟩,
   C4_zoom_monotone 0 1 0 0 0 2 0 0 (by norm_num) (by norm_num) (by norm_num)
     (by norm_num) (by norm_num)⟩

theorem inBounds_thirteen_fifty : inBounds 13 50 = true := by
  norm_num [inBounds, LON_MIN, LON_MAX, LAT_MIN, LAT_MAX]

theorem read_gps_data_replicate_length (n : ℕ) (lon lat : ℚ)
    (h : inBounds lon lat = true) :
    (read_gps_data (List.replicate n (lon, lat))).1.length = n := by
  rw [read_gps_data_eq]
  simp [List.filter_replicate, rowOk, h]

/-- C2: the CSV reader's output is exactly the in-bounds pairs in input
order; the two output sequences have equal length; out-of-bounds pairs are
excluded. -/
theorem C2_read_gps_data_filter (rows : List (ℚ × ℚ)) :
    (read_gps_data rows).1 = (rows.filter rowOk).map Prod.fst ∧
    (read_gps_data rows).2 = (rows.filter rowOk).map Prod.snd ∧
    (read_gps_data rows).1.length = (read_gps_data rows).2.length ∧
    (read_gps_data rows).1.zip (read_gps_data rows).2 = rows.filter rowOk ∧
    ∀ lon lat : ℚ,
      ¬(12.0 ≤ lon ∧ lon ≤ 18.9 ∧ 48.5 ≤ lat ∧ lat ≤ 51.5) →
      (lon, lat) ∉ (read_gps_data rows).1.zip (read_gps_data rows).2 := by
  have he := read_gps_data_eq rows
  have hz : (read_gps_data rows).1.zip (read_gps_data rows).2 =
      rows.filter rowOk := by
    rw [he]
    rw [List.zip_map']
    simp
  refine ⟨by rw [he], by rw [he], by rw [he]; simp, hz, ?_⟩
  intro lon lat hno hm
  rw [hz] at hm
  have hok := (List.mem_filter.mp hm).2
  refine absurd ?_ hno
  simp only [rowOk, inBounds, decide_eq_true_eq] at hok
  norm_num [LON_MIN, LON_MAX, LAT_MIN, LAT_MAX] at hok ⊢
  exact hok

/-- Witness for C2 on a singleton in-bounds row list. -/
theorem C2_read_gps_data_filter_witness :
    (read_gps_data [((13 : ℚ), (50 : ℚ))]).1 =
      ([((13 : ℚ), (50 : ℚ))].filter rowOk).map Prod.fst :=
  (C2_read_gps_data_filter [((13 : ℚ), (50 : ℚ))]).1

/-- C3: `plot_gps_path` skips (diagnostic only) when fewer than 1000 points
were accepted and renders as soon as at least 1000 points were accepted. -/
theorem C3_render_guard (rows : List (ℚ × ℚ)) :
    ((read_gps_data rows).1.length < 1000 →
      plot_gps_path rows = PlotResult.skippedFewRows) ∧
    (1000 ≤ (read_gps_data rows).1.length →
      (plot_gps_path rows).isRendered = true) := by
  constructor
  · intro h
    simp only [plot_gps_path]
    rw [if_pos (Or.inl h)]
  · intro h
    have hlen := read_gps_data_length_eq rows
    have hg1 : ¬((read_gps_data rows).1.length < 1000 ∨
        (read_gps_data rows).2.length < 1000) := by omega
    have hg2 : ¬((read_gps_data rows).1.length = 0 ∨
        (read_gps_data rows).2.length = 0) := by omega
    have hne1 : (read_gps_data rows).1 ≠ [] := by
      apply List.length_pos.mp
      omega
    have hne2 : (read_gps_data rows).2 ≠ [] := by
      apply List.length_pos.mp
      omega
    obtain ⟨a, b, c, d, heq, -⟩ := calculate_bounds_spec hne1 hne2
    simp only [plot_gps_path]
    rw [if_neg hg1, if_neg hg2, heq]
    rfl

/-- Witness for C3: 999 identical in-bounds rows are skipped, 1000 render. -/
theorem C3_render_guard_witness :
    plot_gps_path (List.replicate 999 ((13 : ℚ), (50 : ℚ))) =
      PlotResult.skippedFewRows ∧
    (plot_gps_path (List.replicate 1000 ((13 : ℚ), (50 : ℚ)))).isRendered = true :=
  ⟨(C3_render_guard _).1
     (by rw [read_gps_data_replicate_length 999 13 50 inBounds_thirteen_fifty]; norm_num),
   (C3_render_guard _).2
     (by rw [read_gps_data_replicate_length 1000 13 50 inBounds_thirteen_fifty])⟩

/-- C6: on a non-empty coordinate set, `calculate_bounds` returns the
componentwise minimum/maximum on each axis (so min ≤ max on each axis), and
on `{(12.5,49.0), (13.0,50.0), (12.0,48.5)}` it returns
`(12.0, 13.0, 48.5, 50.0)`. -/
theorem C6_bounds_minmax (lons lats : List ℚ) (h1 : lons ≠ []) (h2 : lats ≠ []) :
    (∃ a b c d, calculate_bounds lons lats = some (a, b, c, d) ∧
      a ∈ lons ∧ b ∈ lons ∧ c ∈ lats ∧ d ∈ lats ∧
      (∀ x ∈ lons, a ≤ x ∧ x ≤ b) ∧ (∀ y ∈ lats, c ≤ y ∧ y ≤ d) ∧
      a ≤ b ∧ c ≤ d) ∧
    calculate_bounds [12.5, 13, 12] [49, 50, 48.5] = some (12, 13, 48.5, 50) := by
  constructor
  · obtain ⟨a, b, c, d, heq, hma, hmb, hmc, hmd, halo, hbup, hclo, hdup⟩ :=
      calculate_bounds_spec h1 h2
    exact ⟨a, b, c, d, heq, hma, hmb, hmc, hmd,
      fun x hx => ⟨halo x hx, hbup x hx⟩,
      fun y hy => ⟨hclo y hy, hdup y hy⟩,
      halo b hmb, hclo d hmd⟩
  · have hmin1 : List.min? [(12.5 : ℚ), 13, 12] = some 12 :=
      rat_min?_eq_some_iff.mpr ⟨by norm_num, by
        intro x hx
        simp at hx
        rcases hx with rfl | rfl | rfl <;> norm_num⟩
    have hmax1 : List.max? [(12.5 : ℚ), 13, 12] = some 13 :=
      rat_max?_eq_some_iff.mpr ⟨by norm_num, by
        intro x hx
        simp at hx
        rcases hx with rfl | rfl | rfl <;> norm_num⟩
    have hmin2 : List.min? [(49 : ℚ), 50, 48.5] = some 48.5 :=
      rat_min?_eq_some_iff.mpr ⟨by norm_num, by
        intro x hx
        simp at hx
        rcases hx with rfl | rfl | rfl <;> norm_num⟩
    have hmax2 : List.max? [(49 : ℚ), 50, 48.5] = some 50 :=
      rat_max?_eq_some_iff.mpr ⟨by norm_num, by
        intro x hx
        simp at hx
        rcases hx with rfl | rfl | rfl <;> norm_num⟩
    unfold calculate_bounds
    rw [hmin1, hmax1, hmin2, hmax2]

/-- Witness for C6 at the example coordinate set from the spec. -/
theorem C6_bounds_minmax_witness :
    (∃ a b c d,
        calculate_bounds [(12.5 : ℚ), 13, 12] [(49 : ℚ), 50, 48.5] =
          some (a, b, c, d) ∧
        a ∈ [(12.5 : ℚ), 13, 12] ∧ b ∈ [(12.5 : ℚ), 13, 12] ∧
        c ∈ [(49 : ℚ), 50, 48.5] ∧ d ∈ [(49 : ℚ), 50, 48.5] ∧
        (∀ x ∈ [(12.5 : ℚ), 13, 12], a ≤ x ∧ x ≤ b) ∧
        (∀ y ∈ [(49 : ℚ), 50, 48.5], c ≤ y ∧ y ≤ d) ∧
        a ≤ b ∧ c ≤ d) ∧
      calculate_bounds [12.5, 13, 12] [49, 50, 48.5] = some (12, 13, 48.5, 50) :=
  C6_bounds_minmax [(12.5 : ℚ), 13, 12] [(49 : ℚ), 50, 48.5]
    (List.cons_ne_nil _ _) (List.cons_ne_nil _ _)

/-- C7: a row whose longitude or latitude does not parse as a float aborts
`read_gps_data` for that file: no output is produced at all. -/
theorem C7_parse_error_aborts (rows : List (Option ℚ × Option ℚ))
    (h : ∃ r ∈ rows, r.1 = none ∨ r.2 = none) :
    read_gps_data_raw rows = none := by
  induction rows with
  | nil => simp at h
  | cons row rest ih =>
    rcases row with ⟨o1, o2⟩
    rcases o1 with _ | lon
    · rcases o2 with _ | lat <;> simp [read_gps_data_raw]
    · rcases o2 with _ | lat
      · simp [read_gps_data_raw]
      · have hrest : ∃ r ∈ rest, r.1 = none ∨ r.2 = none := by
          obtain ⟨r, hr, hbad⟩ := h
          rcases List.mem_cons.mp hr with rfl | hmem
          · simp at hbad
          · exact ⟨r, hmem, hbad⟩
        simp only [read_gps_data_raw]
        rw [ih hrest]
        rfl

/-- Witness for C7 at a one-row file whose longitude fails to parse. -/
theorem C7_parse_error_aborts_witness :
    (∃ r ∈ [((none : Option ℚ), (some (50 : ℚ)))], r.1 = none ∨ r.2 = none) ∧
    read_gps_data_raw [((none : Option ℚ), (some (50 : ℚ)))] = none :=
  ⟨⟨(none, some 50), by simp, Or.inl rfl⟩,
   C7_parse_error_aborts _ ⟨(none, some 50), by simp, Or.inl rfl⟩⟩

/-- C8: the dedicated empty-set branch of `plot_gps_path` (the
"No valid GPS data to plot" diagnostic) is unreachable for every input,
because the fewer-than-1000 guard already returns on empty sets. -/
theorem C8_empty_guard_unreachable (rows : List (ℚ × ℚ)) :
    plot_gps_path rows ≠ PlotResult.skippedEmpty := by
  simp only [plot_gps_path]
  by_cases hg1 : (read_gps_data rows).1.length < 1000 ∨
      (read_gps_data rows).2.length < 1000
  · rw [if_pos hg1]
    simp
  · rw [if_neg hg1]
    have hg2 : ¬((read_gps_data rows).1.length = 0 ∨
        (read_gps_data rows).2.length = 0) := by
      push_neg at hg1
      omega
    rw [if_neg hg2]
    rcases hcb : calculate_bounds (read_gps_data rows).1 (read_gps_data rows).2
      with _ | ⟨a, b, c, d⟩
    · simp
    · simp

/-- Witness for C8 at the empty row list. -/
theorem C8_empty_guard_unreachable_witness :
    plot_gps_path [] ≠ PlotResult.skippedEmpty :=
  C8_empty_guard_unreachable []

/-- C9: on the empty coordinate set, `calculate_bounds` does not return a
bounding box: Python's `min`/`max` of an empty sequence raise `ValueError`,
modelled as `none`. -/
theorem C9_empty_bounds_value_error : calculate_bounds [] [] = none := rfl

/-- C10: for a non-empty coordinate set inside the fixed Czech bounding box,
the zoom estimated from its calculated bounds is at least 9 (the maximal
possible span is 6.9 degrees). -/
theorem C10_zoom_at_least_nine (lons lats : List ℚ)
    (h1 : lons ≠ []) (h2 : lats ≠ [])
    (hlon : ∀ x ∈ lons, LON_MIN ≤ x ∧ x ≤ LON_MAX)
    (hlat : ∀ y ∈ lats, LAT_MIN ≤ y ∧ y ≤ LAT_MAX) :
    ∃ a b c d, calculate_bounds lons lats = some (a, b, c, d) ∧
      9 ≤ estimate_zoom a b c d := by
  obtain ⟨a, b, c, d, heq, hma, hmb, hmc, hmd, halo, hbup, hclo, hdup⟩ :=
    calculate_bounds_spec h1 h2
  refine ⟨a, b, c, d, heq, ?_⟩
  have ha1 : LON_MIN ≤ a := (hlon a hma).1
  have hb1 : b ≤ LON_MAX := (hlon b hmb).2
  have hc1 : LAT_MIN ≤ c := (hlat c hmc).1
  have hd1 : d ≤ LAT_MAX := (hlat d hmd).2
  have hab : a ≤ b := halo b hmb
  have hcd : c ≤ d := hclo d hmd
  have hspan1 : 0 ≤ b - a := by linarith
  have hspan2 : 0 ≤ d - c := by linarith
  have hspan1u : b - a ≤ 69/10 := by
    norm_num [LON_MIN, LON_MAX] at ha1 hb1
    linarith
  have hspan2u : d - c ≤ 3 := by
    norm_num [LAT_MIN, LAT_MAX] at hc1 hd1
    linarith
  by_cases hz : b - a = 0 ∧ d - c = 0
  · rw [show estimate_zoom a b c d = 19 from by simp [estimate_zoom, hz]]
    norm_num
  · have hd0 : 0 < max (b - a) (d - c) := span_max_pos hspan1 hspan2 hz
    rw [estimate_zoom_of_ne _ _ _ _ hz, zoom_clamp_eq hd0]
    have hdle : max (b - a) (d - c) ≤ 69/10 :=
      max_le hspan1u (le_trans hspan2u (by norm_num))
    have hcle : Int.clog 2 (max (b - a) (d - c)) ≤ 3 := by
      have hmono := Int.clog_mono_right (b := 2) hd0 hdle
      rwa [clog_two_sixtynine_tenths] at hmono
    omega

/-- Witness for C10 at the single point `(13, 50)`. -/
theorem C10_zoom_at_least_nine_witness :
    (([(13 : ℚ)] : List ℚ) ≠ [] ∧ ([(50 : ℚ)] : List ℚ) ≠ [] ∧
      (∀ x ∈ ([(13 : ℚ)] : List ℚ), LON_MIN ≤ x ∧ x ≤ LON_MAX) ∧
      (∀ y ∈ ([(50 : ℚ)] : List ℚ), LAT_MIN ≤ y ∧ y ≤ LAT_MAX)) ∧
    ∃ a b c d, calculate_bounds [(13 : ℚ)] [(50 : ℚ)] = some (a, b, c, d) ∧
      9 ≤ estimate_zoom a b c d :=
  ⟨⟨List.cons_ne_nil _ _, List.cons_ne_nil _ _,
    by
      intro x hx
      simp at hx
      subst hx
      norm_num [LON_MIN, LON_MAX],
    by
      intro y hy
      simp at hy
      subst hy
      norm_num [LAT_MIN, LAT_MAX]⟩,
   C10_zoom_at_least_nine [(13 : ℚ)] [(50 : ℚ)]
     (List.cons_ne_nil _ _) (List.cons_ne_nil _ _)
     (by
       intro x hx
       simp at hx
       subst hx
       norm_num [LON_MIN, LON_MAX])
     (by
       intro y hy
       simp at hy
       subst hy
       norm_num [LAT_MIN, LAT_MAX])⟩
